import Mathlib

/-!
Verification of the Thesis-Sentiment analytics core against its design spec.

The development shallowly embeds the relevant source code:

* `server/5_course_analysis/calculate_statistical_rankings.py` —
  Score Adjuster: Bayesian average, size weight, confidence-adjusted score.
* `server/run_lda_from_db.py` — text normalizer `preprocess_for_topics`,
  topic count `n_topics`, topic naming `generate_topic_name` /
  `display_topics`, and the rule-based insight engine
  `generate_quality_insights` with its post-processing summary step.
* `server/topic_modeling_lda.py` — the file-based script (same normalizer,
  fixed topic count 8).
* `server/run_topic_modeling_task.py` — `should_run_topic_modeling` and the
  skip result of `run_topic_modeling_task`.
* `server/api/views.py` — the API variants: the normalizer with the
  faculty-name noise set, `n_topics = min(8, max(3, n // 3))`.

Conventions of the embedding: real-valued scores are modelled over `ℝ`
(`np.sqrt` is irrational), counts over `ℕ`, emotion percentages over `ℚ`
(exact arithmetic in place of IEEE floats), and text over `String` /
`List Char` with Python string methods modelled ASCII-faithfully
(`str.lower`, `str.split()`, `str.isdigit`, `str.strip`, slicing,
`str.rsplit`).  Everything is recomputed pure-functionally, mirroring the
batch scripts.
-/

namespace ThesisSentiment

/-! ## Score Adjuster — `calculate_statistical_rankings.py` -/

/-- `MINIMUM_FEEDBACK_THRESHOLD = 10` (line 23). -/
def MINIMUM_FEEDBACK_THRESHOLD : ℝ := 10

/-- `calculate_bayesian_average(score, count, global_mean, min_count)`
(lines 46-54): `C = min_count; (C * global_mean + count * score) / (C + count)`. -/
noncomputable def calculate_bayesian_average (score count global_mean min_count : ℝ) : ℝ :=
  (min_count * global_mean + count * score) / (min_count + count)

/-- `calculate_wilson_score(positive, total, confidence)` (lines 30-44), with
the normal quantile `z = stats.norm.ppf(1 - (1 - confidence) / 2)` taken as a
parameter (the caller fixes `confidence = 0.95`).  Returns `0` when
`total = 0`.  The Wilson value is computed by `calculate_confidence_score`
but discarded by the ranking (it is not stored in `adjusted_scores`). -/
noncomputable def calculate_wilson_score (positive total z : ℝ) : ℝ :=
  if total = 0 then 0
  else
    let phat := positive / total
    let denominator := 1 + z ^ 2 / total
    let numerator := phat + z ^ 2 / (2 * total) -
      z * Real.sqrt ((phat * (1 - phat) + z ^ 2 / (4 * total)) / total)
    numerator / denominator

/-- `size_weight = min(1.0, np.sqrt(count / MINIMUM_FEEDBACK_THRESHOLD))`
from `calculate_confidence_score` (line 64). -/
noncomputable def size_weight (count : ℝ) : ℝ :=
  min 1 (Real.sqrt (count / MINIMUM_FEEDBACK_THRESHOLD))

/-- The Bayesian component of `calculate_confidence_score` (line 61):
`calculate_bayesian_average(score, count, global_mean, MINIMUM_FEEDBACK_THRESHOLD)`. -/
noncomputable def bayesian_score (score count global_mean : ℝ) : ℝ :=
  calculate_bayesian_average score count global_mean MINIMUM_FEEDBACK_THRESHOLD

/-- The confidence-adjusted score returned first by
`calculate_confidence_score` (line 72):
`confidence_adjusted = (bayesian * 0.5) + (score * size_weight * 0.5)`. -/
noncomputable def confidence_adjusted (score count global_mean : ℝ) : ℝ :=
  bayesian_score score count global_mean * 0.5 + score * size_weight count * 0.5

/-! ## Text Normalizer — `preprocess_for_topics`
(`run_lda_from_db.py` lines 72-76, `topic_modeling_lda.py` lines 29-34, and
the API variant with the faculty-name noise set, `api/views.py` lines
1083-1095).  Python `str.split()` splits on whitespace runs and drops empty
tokens; `" ".join` re-joins with single spaces. -/

/-- `text.lower()`, per character (ASCII case mapping). -/
def pyLower (cs : List Char) : List Char := cs.map Char.toLower

/-- `w.isdigit()`: nonempty and all digits. -/
def pyIsDigitTok (w : List Char) : Bool := !w.isEmpty && w.all Char.isDigit

/-- Characters that are not whitespace (token characters for `str.split()`). -/
def notWS (c : Char) : Bool := !c.isWhitespace

/-- Accumulator pass of `str.split()`: `acc` is the current token reversed. -/
def splitWSAux : List Char → List Char → List (List Char)
  | [], acc => if acc.isEmpty then [] else [acc.reverse]
  | c :: rest, acc =>
    if c.isWhitespace then
      if acc.isEmpty then splitWSAux rest [] else acc.reverse :: splitWSAux rest []
    else splitWSAux rest (c :: acc)

/-- `text.split()`: whitespace-separated tokens, empty tokens dropped. -/
def splitWS (cs : List Char) : List (List Char) := splitWSAux cs []

/-- `" ".join(words)`. -/
def joinSpace : List (List Char) → List Char
  | [] => []
  | [w] => w
  | w :: ws => w ++ ' ' :: joinSpace ws

/-- The token filter of the batch normalizer: `len(w) > 3 and not w.isdigit()`. -/
def keepTok (w : List Char) : Bool := decide (w.length > 3) && !pyIsDigitTok w

/-- `preprocess_for_topics(text)` of `run_lda_from_db.py` (lines 72-76) and
`topic_modeling_lda.py` (lines 29-34): lowercase, split, keep tokens longer
than 3 that are not pure numerals, re-join with spaces. -/
def preprocess_for_topics (t : List Char) : List Char :=
  joinSpace ((splitWS (pyLower t)).filter keepTok)

/-- `faculty_names` of the API normalizer (`api/views.py` lines 1086-1092):
the noise set of names/honorifics filtered out of feedback text. -/
def faculty_names : List (List Char) :=
  ["salimar", "salih", "sal", "sir", "maam", "ma\x27am", "mr", "mrs", "ms",
   "jaydee", "ballaho", "lucy", "felix", "sadiwa", "odon", "maravilla",
   "arip", "chris", "sherard", "lines", "marjory", "rojas", "marj",
   "rhamirl", "jaafar", "rham", "ram", "jlo", "edios", "jaylo",
   "mark", "flores", "yara", "professor", "prof", "teacher", "instructor"].map
    String.toList

/-- The API token filter:
`len(w) > 3 and not w.isdigit() and w not in faculty_names`. -/
def keepTokApi (w : List Char) : Bool :=
  decide (w.length > 3) && !pyIsDigitTok w && !faculty_names.contains w

/-- `preprocess_for_topics(text)` of `api/views.py` (lines 1083-1095): as the
batch normalizer plus the faculty-name noise filter. -/
def preprocess_for_topics_api (t : List Char) : List Char :=
  joinSpace ((splitWS (pyLower t)).filter keepTokApi)

/-- String-level wrapper of the batch normalizer. -/
def preprocess_str (s : String) : String := String.mk (preprocess_for_topics s.toList)

/-- String-level wrapper of the API normalizer. -/
def preprocess_api_str (s : String) : String := String.mk (preprocess_for_topics_api s.toList)

/-! ## Topic count -/

/-- `run_lda_from_db.py` line 97: `n_topics = min(5, len(all_feedback) // 2)`. -/
def n_topics (document_count : ℕ) : ℕ := min 5 (document_count / 2)

/-- `topic_modeling_lda.py` line 55: `n_topics = 8` (fixed). -/
def n_topics_file : ℕ := 8

/-- `api/views.py` line 1112: `n_topics = min(8, max(3, len(all_feedback) // 3))`. -/
def n_topics_api (document_count : ℕ) : ℕ := min 8 (max 3 (document_count / 3))

/-- Modelled from the spec: `clamp(document_count / 3, 3, 8)` — the formula
the spec states for the dynamically chosen topic count (spec section 4.3).
No definition of this name exists in the source; it is written from the
spec words for comparison with the source formulas. -/
def spec_clamp (document_count : ℕ) : ℕ := max 3 (min 8 (document_count / 3))

/-! ## Topic Namer — `generate_topic_name` / `display_topics`
(`run_lda_from_db.py` lines 115-172).  Python substring tests (`pattern in
kw`) are modelled by `listInfix`; `dict` iteration order is insertion order,
and `max(d, key=d.get)` returns the first key of maximal value. -/

/-- `s.lower()` on `String`, through the character-list model (Lean's
`String.toLower` is definitionally opaque to kernel reduction). -/
def pyLowerStr (s : String) : String := String.mk (pyLower s.toList)

/-- Python `pat in hay` for strings: contiguous-sublist test. -/
def listInfix : List Char → List Char → Bool
  | pat, [] => pat.isEmpty
  | pat, c :: t => pat.isPrefixOf (c :: t) || listInfix pat t

/-- `pattern in kw` (substring containment) on `String`. -/
def strContains (hay pat : String) : Bool := listInfix pat.toList hay.toList

/-- `topic_patterns` of `run_lda_from_db.generate_topic_name` (lines
120-131), in source order (including the duplicated `"organized"` entry of
`Course Organization`). -/
def topic_patterns : List (String × List String) :=
  [("Teaching Quality", ["teaching", "instructor", "professor", "explain", "explains", "clear", "understanding", "lectures", "lecture"]),
   ("Course Content", ["content", "material", "materials", "topics", "subject", "curriculum", "knowledge", "learning"]),
   ("Assignments & Workload", ["assignments", "homework", "workload", "tasks", "work", "projects", "assignment", "deadline"]),
   ("Class Engagement", ["class", "interactive", "activities", "discussions", "participate", "engaging", "interesting", "attention"]),
   ("Assessment & Grading", ["exam", "exams", "test", "tests", "grade", "grading", "feedback", "assessment", "evaluation"]),
   ("Time Management", ["time", "schedule", "pace", "pacing", "deadlines", "timing", "duration", "hours"]),
   ("Learning Support", ["help", "support", "guidance", "office", "hours", "questions", "clarification", "assistance"]),
   ("Course Organization", ["organized", "structure", "organized", "syllabus", "schedule", "plan", "organization"]),
   ("Student Experience", ["experience", "enjoy", "enjoyed", "appreciate", "liked", "love", "positive", "good"]),
   ("Communication", ["communication", "responds", "response", "email", "available", "accessible", "communicates"])]

/-- `max(category_scores, key=category_scores.get)`: first key of maximal
value in insertion order (`none` on the empty dict). -/
def first_max_fold (l : List (String × ℕ)) : Option (String × ℕ) :=
  l.foldl
    (fun acc p =>
      match acc with
      | none => some p
      | some q => if p.2 > q.2 then some p else some q)
    none

/-- Python `str.title()` (ASCII): uppercase each alphabetic character that
follows a non-alphabetic one, lowercase the rest.  The boolean tracks
whether the previous character was alphabetic. -/
def pyTitleAux : List Char → Bool → List Char
  | [], _ => []
  | c :: t, prevAlpha =>
    (if c.isAlpha then (if prevAlpha then c.toLower else c.toUpper) else c) ::
      pyTitleAux t c.isAlpha

/-- `k.title()` on `String`. -/
def pyTitle (s : String) : String := String.mk (pyTitleAux s.toList false)

/-- `generate_topic_name(keywords)` (`run_lda_from_db.py` lines 115-146):
score each category of `topic_patterns` by how many of the first 10
lowercased keywords contain one of its pattern substrings; return the first
best-scoring category with positive score, else join the titled first two
keywords with `" & "`. -/
def generate_topic_name (keywords : List String) : String :=
  let keyword_list := (keywords.take 10).map pyLowerStr
  let category_scores := topic_patterns.filterMap fun cp =>
    let score := keyword_list.countP fun kw => cp.2.any fun p => strContains kw p
    if score > 0 then some (cp.1, score) else none
  match first_max_fold category_scores with
  | some cs => cs.1
  | none => String.intercalate " & " ((keywords.take 2).map pyTitle)

/-- Python `topics[name] = words` on a dict modelled as an insertion-ordered
association list: overwrite the value if the key exists (keeping its
position), else append. -/
def upsert (m : List (String × List String)) (k : String) (v : List String) :
    List (String × List String) :=
  if m.any (fun p => p.1 == k) then
    m.map fun p => if p.1 == k then (k, v) else p
  else m ++ [(k, v)]

/-- The `topics` dict built by `display_topics(model, feature_names, ...)`
(`run_lda_from_db.py` lines 148-162), abstracted over the per-topic
top-word lists already extracted from the fitted model:
`topics[topic_name] = top_words` for each topic in index order. -/
def display_topics (topic_top_words : List (List String)) : List (String × List String) :=
  topic_top_words.foldl (fun acc ws => upsert acc (generate_topic_name ws) ws) []

/-! ## Emotion Cross-Tabulator — `topic_data['label'].value_counts()`
(`run_lda_from_db.py` lines 203-204): label counts of the documents whose
dominant topic is the given index.  `value_counts` sorts by count
descending; the embedding uses a stable sort, keeping first-appearance order
among equal counts. -/

/-- Distinct elements in order of first appearance. -/
def distinct_labels (ls : List String) : List String :=
  ls.foldl (fun acc l => if acc.contains l then acc else acc ++ [l]) []

/-- Stable descending insertion by count: place `p` before the first entry
of strictly smaller count. -/
def insertDesc (p : String × ℕ) : List (String × ℕ) → List (String × ℕ)
  | [] => [p]
  | q :: rest => if p.2 > q.2 then p :: q :: rest else q :: insertDesc p rest

/-- Stable sort by count descending (insertion sort). -/
def sortDesc (l : List (String × ℕ)) : List (String × ℕ) := l.foldr insertDesc []

/-- `Series.value_counts().to_dict()`: distinct labels with their counts,
sorted by count descending (stable: first-appearance order among ties). -/
def value_counts (ls : List String) : List (String × ℕ) :=
  sortDesc ((distinct_labels ls).map fun l => (l, ls.count l))

/-- The per-topic `emotion_dist` of `run_lda_from_db.py` lines 203-204:
documents are `(dominant_topic, label)` pairs; keep those of the given
topic and count their labels. -/
def emotionDistribution (docs : List (ℕ × String)) (topic : ℕ) : List (String × ℕ) :=
  value_counts ((docs.filter fun d => decide (d.1 = topic)).map (·.2))

/-! ## Insight Rule Engine — `generate_quality_insights(topic_idx, keywords,
emotion_dist)` (`run_lda_from_db.py` lines 242-523).  Emotion percentages
are exact rationals; `f-string` interpolation `{x:.0f}` is modelled by
round-half-even formatting (`fmt0f`). -/

/-- An insight record.  The early zero-total return carries no `summary` /
`details` keys, modelled by `none`; post-processed insights carry `some`. -/
structure Insight where
  category : String
  priority : String
  suggestion : String
  icon : String
  method : String
  summary : Option String := none
  details : Option String := none
deriving DecidableEq

/-- `total = sum(emotion_dist.values())`. -/
def pctTotal (dist : List (String × ℕ)) : ℕ := (dist.map (·.2)).sum

/-- `emotions.get(label, 0)` where `emotions = {e: c/total*100}`. -/
def pctOf (dist : List (String × ℕ)) (label : String) : ℚ :=
  (((dist.lookup label).getD 0 : ℕ) : ℚ) / (pctTotal dist : ℚ) * 100

/-- `negative = emotions.get('boredom', 0) + emotions.get('disappointment', 0)`. -/
def negativePct (dist : List (String × ℕ)) : ℚ :=
  pctOf dist "boredom" + pctOf dist "disappointment"

/-- `positive = emotions.get('joy', 0) + emotions.get('satisfaction', 0)`. -/
def positivePct (dist : List (String × ℕ)) : ℚ :=
  pctOf dist "joy" + pctOf dist "satisfaction"

/-- `neutral = emotions.get('acceptance', 0)`. -/
def neutralPct (dist : List (String × ℕ)) : ℚ := pctOf dist "acceptance"

/-- Round half to even, as Python `format(x, '.0f')` rounds. -/
def roundHalfEven (q : ℚ) : ℤ :=
  let n := q.floor
  let f := q - (n : ℚ)
  if f < 1/2 then n else if 1/2 < f then n + 1 else if n % 2 = 0 then n else n + 1

/-- `f'{x:.0f}'`: the percentage formatted with no decimals. -/
def fmt0f (q : ℚ) : String := toString (roundHalfEven q)

/-- `keyword_set = set([k.lower() for k in keywords[:15]])` (line 262),
modelled as the lowercased list (membership is what the engine uses). -/
def keyword_set (keywords : List String) : List String :=
  (keywords.take 15).map pyLowerStr

/-- `top_keywords = ', '.join(keywords[:5])` (line 263). -/
def top_keywords (keywords : List String) : String :=
  String.intercalate ", " (keywords.take 5)

/-- `sentiment_context` (lines 266-276). -/
def sentiment_context (negative positive neutral : ℚ) : String :=
  if negative > 50 then
    "High concern detected (" ++ fmt0f negative ++ "% negative sentiment)"
  else if negative > 30 then
    "Moderate concerns identified (" ++ fmt0f negative ++ "% negative sentiment)"
  else if positive > 60 then
    "Strong positive feedback (" ++ fmt0f positive ++ "% positive sentiment)"
  else if positive > 40 then
    "Generally positive feedback (" ++ fmt0f positive ++ "% positive sentiment)"
  else
    "Mixed feedback (" ++ fmt0f neutral ++ "% neutral, " ++ fmt0f positive ++
      "% positive, " ++ fmt0f negative ++ "% negative)"

def sugg_general : String :=
  "Continue monitoring student feedback for this topic area."

def sugg_t_high (ctx : String) (tkw : String) : String :=
  ctx ++ ". Students highlight concerns about teaching methods related to: " ++ tkw ++ ". **Immediate Actions**: (1) Schedule one-on-one consultations with struggling students to understand specific challenges and learning barriers, (2) Record all lectures and make them available within 24 hours for review and self-paced learning, (3) Implement proven interactive teaching strategies: think-pair-share discussions (5-10 min per class), case study analysis in small groups, real-world problem-solving sessions, and peer teaching opportunities, (4) Provide multi-modal explanations using visual aids (diagrams, flowcharts, concept maps), video demonstrations, step-by-step written guides, and concrete examples before abstract concepts, (5) Create a continuous feedback loop through weekly check-ins, anonymous pulse surveys, and mid-semester formal evaluation to adjust teaching approaches in real-time, (6) Utilize backward design: start with learning outcomes and design assessments first, then align teaching methods to ensure constructive alignment, (7) Differentiate instruction by offering multiple pathways to master content (readings, videos, hands-on labs, group projects) to accommodate diverse learning styles and paces."

def sugg_t_boredom (boredom : ℚ) : String :=
  "Significant boredom detected (" ++ fmt0f boredom ++ "%). **Comprehensive Engagement Strategies**: (1) Introduce gamification: point systems for participation, achievement badges for milestones, class leaderboards (individual or team-based), and challenge-based learning with rewards, (2) Use interactive technology: live polls and quizzes with Mentimeter/Kahoot every 15 minutes, collaborative virtual whiteboards (Miro, Jamboard), real-time Q&A platforms (Slido), and interactive simulations, (3) Implement active learning structures: think-pair-share (individual thinking → pair discussion → class sharing), jigsaw method (expert groups teaching each other), fishbowl discussions, and Socratic seminars, (4) Incorporate multimedia: relevant video clips (3-5 min), podcast segments, infographics, animations, and interactive demonstrations, (5) Connect to real-world: bring in industry guest speakers, analyze current news events, solve authentic problems from local businesses, virtual field trips, and student-led case presentations, (6) Vary instructional methods every 15-20 minutes following brain science: mini-lecture → active practice → discussion → reflection cycle, (7) Give students autonomy: choice in project topics, multiple assessment formats, self-paced modules, and opportunities to teach peers."

def sugg_t_disappoint (disappointment : ℚ) : String :=
  "Student disappointment is evident (" ++ fmt0f disappointment ++ "%). **Comprehensive Quality Improvements**: (1) Conduct thorough content audit: review all materials for accuracy, currency, clarity, and alignment with current standards and industry practices, (2) Establish crystal-clear learning objectives: use measurable, action-oriented language (Bloom\x27s taxonomy), share objectives at start of each class, and map how activities connect to objectives, (3) Provide scaffolded learning: start with foundational concepts, build complexity gradually, offer worked examples before independent practice, and use \"I do, we do, you do\" instructional model, (4) Increase practice opportunities: provide guided practice problems with immediate feedback, create low-stakes formative quizzes, offer practice exams, and establish study problem sets with detailed solutions, (5) Expand support infrastructure: double office hours, create supplemental instruction sessions with trained peer leaders, offer online help through discussion forums or chat hours, and provide one-on-one tutoring referrals, (6) Ensure constructive alignment: verify assessments directly test what you taught, use same terminology in tests as in lectures, provide practice questions similar to exam format, and eliminate \"gotcha\" questions that test trivia, (7) Demonstrate competence and preparation: arrive early to set up, have backup plans for technical issues, respond knowledgeably to questions, and show enthusiasm for the subject matter."

def sugg_t_low (ctx : String) (tkw : String) : String :=
  ctx ++ ". Students appreciate teaching methods related to: " ++ tkw ++ ". **Sustain and Scale Excellence**: (1) Document your success: create a detailed teaching portfolio with lesson plans, assessment examples, student feedback quotes, and reflection on what makes methods effective, (2) Share with colleagues: lead departmental teaching workshops, present at teaching and learning conferences, write articles for pedagogical journals (e.g., Journal of College Teaching & Learning), and create video demonstrations of your techniques, (3) Mentor others: formally mentor new faculty or graduate teaching assistants, conduct peer observations with feedback, and serve on teaching excellence committees, (4) Innovate strategically: maintain 80% of proven methods while experimenting with 20% new approaches, stay current with pedagogical research, attend teaching conferences, and pilot emerging technologies thoughtfully, (5) Seek external recognition: apply for teaching awards, request letters of support from students for promotion portfolios, and contribute to teaching excellence programs, (6) Create reusable resources: develop open educational resources (OER) that others can adapt, build a repository of successful activities and assignments, and share on platforms like MERLOT or OER Commons, (7) Research your practice: conduct scholarship of teaching and learning (SoTL) studies on what makes your methods effective, present findings at conferences, and publish to advance the field."

def sugg_t_mid (ctx : String) (tkw : String) : String :=
  ctx ++ " regarding teaching methods focused on: " ++ tkw ++ ". **Improvement Path**: Conduct a detailed mid-semester survey to identify specific areas for improvement, experiment with different pedagogical approaches (flipped classroom, peer instruction, active learning), seek peer observation and feedback from experienced colleagues, attend professional development workshops on innovative teaching methods, and implement formative assessments to gauge student understanding regularly."

def sugg_m_high (tkw : String) : String :=
  "Course materials need significant improvement - key areas: " ++ tkw ++ ". **Comprehensive Materials Overhaul**: (1) Conduct full content audit: evaluate all materials for accuracy, currency (published within 5 years), clarity (appropriate reading level), cultural relevance, and direct alignment with learning objectives, (2) Develop multi-modal content library: create 5-10 minute micro-lecture videos with closed captions, design visual infographics summarizing key concepts, develop interactive simulations or virtual labs, record podcast-style explanations for mobile learning, and provide traditional text readings with guided reading questions, (3) Ensure universal accessibility: use proper heading structure for screen readers, provide alt-text for all images, caption all videos (auto-generated plus manual review), use sufficient color contrast, offer materials in multiple formats (PDF, Word, HTML), and test with accessibility checkers (WAVE, aXe), (4) Create comprehensive support materials: write detailed study guides with key terms and concept maps, develop practice problem sets with step-by-step solutions, create FAQ documents addressing common misconceptions, design self-assessment quizzes with immediate feedback, and provide exam study resources (practice tests, concept reviews), (5) Organize systematically in LMS: use consistent module structure, create clear navigation with descriptive labels, sequence materials logically (pre-class → in-class → post-class), use folders and subfolders strategically, and provide a course roadmap showing how materials connect, (6) Gather and implement feedback: survey students on which materials are most/least helpful, track which resources students actually use (LMS analytics), conduct focus groups to understand material preferences, and iterate based on data, (7) Update continuously: review and refresh materials each semester, incorporate current events and recent research, replace outdated examples, and archive old versions."

def sugg_m_assign (negative : ℚ) : String :=
  "Assignments require comprehensive redesign (" ++ fmt0f negative ++ "% negative feedback). **Strategic Assignment Improvements**: (1) Develop transparent rubrics: create detailed scoring criteria for each assignment component (content, organization, analysis, mechanics), use 4-5 performance levels (exemplary, proficient, developing, beginning), include concrete descriptors for each level, share rubrics when assigning (not just when grading), and consider letting students help design rubrics to increase buy-in, (2) Provide exemplars and models: show 2-3 sample assignments from previous semesters (with permission) representing different quality levels, explain what makes each strong or weak using rubric language, create annotated examples highlighting key features, and offer templates or starter files for complex assignments, (3) Scaffold large projects: break major assignments into meaningful milestones (proposal → outline → draft → final), set interim deadlines with feedback opportunities, require progress check-ins (office hours or online submissions), and build skills progressively across assignments, (4) Write crystal-clear instructions: use numbered steps for multi-part assignments, define all technical terms, provide specific formatting requirements (citation style, length, file format), include FAQ sections addressing common questions, and offer checklists students can use before submitting, (5) Ensure constructive alignment: verify each assignment directly assesses stated learning objectives, use assignments to practice skills needed for exams, connect assignments to real-world applications in the field, and eliminate busywork that doesn\x27t advance learning, (6) Offer strategic choice: provide 2-3 topic options for projects, allow selection of format (paper, presentation, video, portfolio), let students propose alternatives with approval, and differentiate complexity for challenge levels, (7) Design for authentic learning: base assignments on real-world problems or scenarios, invite students to address issues in their communities or interests, consider partnerships with local organizations, and create opportunities to share work publicly (class presentations, websites, community events)."

def sugg_m_low (positive : ℚ) (tkw : String) : String :=
  "Course materials are well-received (" ++ fmt0f positive ++ "% positive sentiment) in areas like: " ++ tkw ++ ". **Maintain Quality**: Continue updating materials with current research and industry trends, gather feedback on specific resources to identify the most valuable ones, consider publishing or sharing your high-quality materials with the broader academic community, create a resource library that can be reused and refined for future course iterations."

def sugg_m_mid (tkw : String) : String :=
  "Course materials show room for enhancement in: " ++ tkw ++ ". **Strategic Updates**: Refresh materials regularly with current examples and case studies, add multimedia elements to increase engagement (videos, interactive diagrams), provide both digital and printable versions, include prerequisite review materials for students who need foundational support, curate external resources (articles, videos, websites) that complement core materials, and solicit student input on which resources are most helpful."

def sugg_w_main (tkw : String) : String :=
  "Students express concerns about time and workload related to: " ++ tkw ++ ". **Comprehensive Workload Optimization**: (1) Create semester workload map: chart all assignments, exams, and major deliverables on a calendar, identify clustering periods (e.g., weeks with multiple deadlines), redistribute work to create breathing room, avoid scheduling major assessments during peak times (before holidays, exam weeks), and share workload calendar with students on day one so they can plan, (2) Provide detailed master schedule: create comprehensive course calendar with all class topics, reading assignments, due dates, exam dates, and no-class days, distribute in multiple formats (PDF, Google Calendar, LMS calendar), update and announce any changes prominently, and send weekly reminder emails of upcoming deadlines, (3) Implement milestone-based project structure: for projects spanning 4+ weeks, create 3-4 mandatory checkpoints (proposal, outline, draft, final), assign points to milestones to incentivize steady progress, provide substantive feedback at each stage, build in time for revision between stages, and penalize procrastination less while rewarding consistent effort, (4) Prioritize quality over quantity: audit current assignments and eliminate those that don\x27t directly advance learning objectives, combine similar assignments into one deeper task, replace multiple small quizzes with fewer meaningful assessments, focus on assignments that develop critical skills rather than test recall, and aim for students to spend 2-3 hours outside class per credit hour, (5) Build in flexibility mechanisms: offer \"grace day\" policy (e.g., 3 penalty-free 24-hour extensions per semester, no questions asked), accept late work with clear policies (e.g., 10% reduction per day), allow revision opportunities on major assignments, and drop lowest quiz/homework grade, (6) Coordinate across courses: communicate with colleagues teaching in same program, consult department exam schedule before setting your dates, be aware of major events affecting students (conferences, practicum requirements), and participate in program-level workload discussions, (7) Assess and adjust workload: conduct mid-semester survey asking students about time spent per week, compare student-reported time to course credit expectations (3 hours per credit), identify specific bottlenecks or overwhelming assignments, make adjustments for future semesters, and share workload data transparently with students."

def sugg_w_deadline : String :=
  "Deadline concerns identified. **Better Deadline Practices**: Announce all deadlines at least 2-3 weeks in advance, send reminder notifications 1 week and 1 day before due dates, allow students to submit draft work for early feedback, implement a \"late day\" policy where students have limited penalty-free extensions, coordinate with other instructors to avoid deadline conflicts, and be transparent about why certain deadlines exist to help students prioritize."

def sugg_e_high (boredom : ℚ) (tkw : String) : String :=
  "Low engagement detected (" ++ fmt0f boredom ++ "% boredom) in areas: " ++ tkw ++ ". **Engagement Transformation**: (1) Implement active learning: think-pair-share, jigsaw activities, peer teaching, problem-based learning, (2) Use technology: interactive polls (Mentimeter, Kahoot), collaborative tools (Padlet, Miro), discussion forums, (3) Incorporate real-world applications and current events to show relevance, (4) Design group projects that require meaningful collaboration and interdependence, (5) Invite guest speakers or organize field trips to connect theory with practice, (6) Create opportunities for student choice in topics, presentation formats, or project directions, (7) Gamify learning with points, badges, leaderboards for motivation."

def sugg_e_low (positive : ℚ) (tkw : String) : String :=
  "Strong engagement success (" ++ fmt0f positive ++ "% positive sentiment) with: " ++ tkw ++ ". **Scale Your Success**: Document what makes your engagement strategies effective, create a best practices guide for your department, consider presenting your methods at teaching conferences, mentor colleagues who want to increase engagement, and continuously innovate by trying new engagement techniques while keeping proven methods."

def sugg_e_mid (tkw : String) : String :=
  "Engagement shows mixed results in: " ++ tkw ++ ". **Boost Interaction**: Experiment with new interactive formats (debates, simulations, role-playing), ensure all students participate (not just vocal ones) through structured turn-taking or random selection, create safe spaces for questions and discussion without judgment, use small group work before large group discussions to build confidence, and regularly assess what engagement strategies resonate most with your students."

def sugg_a_high (negative : ℚ) (tkw : String) : String :=
  "Assessment practices need review (" ++ fmt0f negative ++ "% negative feedback) regarding: " ++ tkw ++ ". **Assessment Reform**: (1) Ensure assessments align with learning objectives and class content (constructive alignment), (2) Provide detailed rubrics before assignments so students know expectations, (3) Offer formative assessments (low-stakes quizzes, practice problems) before high-stakes exams, (4) Give timely, constructive feedback that helps students improve (within 1-2 weeks), (5) Consider alternative assessment formats beyond traditional exams (portfolios, presentations, projects), (6) Implement self and peer assessment to develop metacognitive skills, (7) Be transparent about grading criteria and address student concerns promptly."

def sugg_a_low (positive : ℚ) : String :=
  "Assessment practices are well-regarded (" ++ fmt0f positive ++ "% positive sentiment). **Maintain Standards**: Continue providing clear expectations and timely feedback, share your assessment strategies with colleagues, document your rubrics and grading practices for consistency, and explore new assessment methods that could further enhance student learning and demonstrate mastery."

def sugg_s_high (tkw : String) : String :=
  "Course organization needs significant improvement in: " ++ tkw ++ ". **Structural Overhaul**: (1) Create a comprehensive, detailed syllabus with clear learning objectives, topics, schedule, policies, and contact information, (2) Organize course content into logical, coherent modules with clear progression, (3) Establish consistent patterns (e.g., lectures on Monday, labs on Wednesday) so students know what to expect, (4) Provide a visual course roadmap showing how topics connect and build on each other, (5) Communicate changes to the schedule promptly and clearly, (6) Hold a mid-semester feedback session to address organizational concerns, (7) Use a well-organized LMS with intuitive navigation and consistent structure across modules."

def sugg_s_low (positive : ℚ) (tkw : String) : String :=
  "Excellent course organization (" ++ fmt0f positive ++ "% positive sentiment) in: " ++ tkw ++ ". **Best Practice Sharing**: Your organizational approach is working well. Document your course design process, share your syllabus and course structure as a model for others, contribute to curriculum development committees, and consider writing about your course design in teaching publications."

def sugg_s_mid (tkw : String) : String :=
  "Course organization can be refined in areas like: " ++ tkw ++ ". **Incremental Improvements**: Review syllabus for clarity and completeness, ensure consistent structure across all modules, provide clear learning objectives for each class session, create transition statements that connect topics, maintain updated course materials and schedules, and gather student input on organizational aspects that could be clearer."

def sugg_c_high (tkw : String) : String :=
  "Students need better communication and support regarding: " ++ tkw ++ ". **Enhanced Support System**: (1) Increase office hours or offer virtual meeting options for accessibility, (2) Respond to emails within 24-48 hours and set clear communication expectations, (3) Create multiple channels for help (email, discussion forum, messaging app, office hours), (4) Establish peer tutoring or study groups for additional support, (5) Proactively reach out to struggling students early in the semester, (6) Provide clear, detailed responses to questions and follow up to ensure understanding, (7) Create an FAQ document addressing common questions and concerns."

def sugg_c_mid : String :=
  "Maintain open, responsive communication channels. Continue being available and supportive to students, respond promptly to inquiries, and consider implementing additional support mechanisms like peer mentoring or supplementary instruction sessions for challenging topics."

def sugg_f_low (positive : ℚ) (tkw : String) : String :=
  "Course is performing excellently (" ++ fmt0f positive ++ "% positive sentiment) in areas: " ++ tkw ++ ". **Continuous Excellence**: Continue current effective practices, document your successful strategies, share your approach with colleagues, stay current with pedagogical innovations, regularly seek student feedback to maintain high quality, and consider taking on leadership roles in teaching and learning initiatives in your department or institution."

def sugg_f_high (negative : ℚ) (tkw : String) : String :=
  "Significant improvement needed (" ++ fmt0f negative ++ "% negative sentiment) regarding: " ++ tkw ++ ". **Comprehensive Action Plan**: (1) Conduct student focus groups to identify root causes of dissatisfaction, (2) Prioritize top 3-5 issues based on student feedback frequency and severity, (3) Create a concrete action plan with timeline and measurable goals, (4) Seek mentorship from excellent teachers in your department, (5) Attend teaching workshops and professional development programs, (6) Implement changes incrementally and gather ongoing feedback, (7) Consider course redesign consultation with your institution\x27s teaching and learning center, (8) Communicate changes to students transparently to show you value their input."

def sugg_f_mid (tkw : String) : String :=
  "Course shows moderate performance with mixed feedback on: " ++ tkw ++ ". **Strategic Improvement**: Focus on identified areas from student feedback, implement targeted improvements systematically, measure impact of changes through ongoing feedback collection, celebrate and sustain what is working well, address problem areas with evidence-based teaching practices, and maintain open dialogue with students about course evolution."

/-- The teaching rule family (lines 279-320). -/
def teaching_block (kwset : List String) (negative positive boredom disappointment : ℚ)
    (ctx tkw : String) : List Insight :=
  if ["teaching", "instructor", "explain", "learning", "understand", "method"].any
      (fun w => kwset.contains w) then
    if negative > 40 then
      [⟨"Teaching Effectiveness", "high", sugg_t_high ctx tkw, "presentation", "lda-based", none, none⟩] ++
      (if boredom > 25 then
        [⟨"Teaching Engagement", "high", sugg_t_boredom boredom, "zap", "lda-based", none, none⟩]
       else []) ++
      (if disappointment > 25 then
        [⟨"Teaching Quality", "high", sugg_t_disappoint disappointment, "alert-triangle", "lda-based", none, none⟩]
       else [])
    else if positive > 50 then
      [⟨"Teaching Effectiveness", "low", sugg_t_low ctx tkw, "presentation", "lda-based", none, none⟩]
    else
      [⟨"Teaching Effectiveness", "medium", sugg_t_mid ctx tkw, "presentation", "lda-based", none, none⟩]
  else []

/-- The course-materials rule family (lines 322-356). -/
def materials_block (kwset : List String) (negative positive : ℚ) (tkw : String) :
    List Insight :=
  if ["materials", "assignments", "course", "provide", "resources", "content"].any
      (fun w => kwset.contains w) then
    if negative > 30 then
      [⟨"Course Materials", "high", sugg_m_high tkw, "book", "lda-based", none, none⟩] ++
      (if kwset.contains "assignments" || kwset.contains "homework" then
        [⟨"Assignment Design", "high", sugg_m_assign negative, "clipboard", "lda-based", none, none⟩]
       else [])
    else if positive > 45 then
      [⟨"Course Materials", "low", sugg_m_low positive tkw, "book", "lda-based", none, none⟩]
    else
      [⟨"Course Materials", "medium", sugg_m_mid tkw, "book", "lda-based", none, none⟩]
  else []

/-- The time-management / workload rule family (lines 358-376). -/
def workload_block (kwset : List String) (negative : ℚ) (tkw : String) : List Insight :=
  if ["time", "deadlines", "schedule", "mindful", "workload", "pace"].any
      (fun w => kwset.contains w) then
    [⟨"Time Management & Workload", if negative > 35 then "high" else "medium",
      sugg_w_main tkw, "clock", "lda-based", none, none⟩] ++
    (if kwset.contains "deadlines" then
      [⟨"Deadline Management", if negative > 35 then "high" else "medium",
        sugg_w_deadline, "calendar", "lda-based", none, none⟩]
     else [])
  else []

/-- The engagement rule family (lines 378-403). -/
def engagement_block (kwset : List String) (positive boredom : ℚ) (tkw : String) :
    List Insight :=
  if ["interactive", "activities", "discussions", "experience", "participate", "engage"].any
      (fun w => kwset.contains w) then
    if boredom > 30 then
      [⟨"Student Engagement", "high", sugg_e_high boredom tkw, "users", "lda-based", none, none⟩]
    else if positive > 45 then
      [⟨"Student Engagement", "low", sugg_e_low positive tkw, "users", "lda-based", none, none⟩]
    else
      [⟨"Student Engagement", "medium", sugg_e_mid tkw, "users", "lda-based", none, none⟩]
  else []

/-- The assessment rule family (lines 405-422) — note: no medium branch. -/
def assessment_block (kwset : List String) (negative positive : ℚ) (tkw : String) :
    List Insight :=
  if ["assessment", "exam", "test", "grading", "evaluation", "feedback", "grades"].any
      (fun w => kwset.contains w) then
    if negative > 35 then
      [⟨"Assessment & Evaluation", "high", sugg_a_high negative tkw, "file-text", "lda-based", none, none⟩]
    else if positive > 45 then
      [⟨"Assessment & Evaluation", "low", sugg_a_low positive, "file-text", "lda-based", none, none⟩]
    else []
  else []

/-- The course-structure rule family (lines 424-449). -/
def structure_block (kwset : List String) (negative positive : ℚ) (tkw : String) :
    List Insight :=
  if ["course", "subject", "overall", "better", "need", "structure", "organized"].any
      (fun w => kwset.contains w) then
    if negative > 35 then
      [⟨"Course Structure", "high", sugg_s_high tkw, "folder", "lda-based", none, none⟩]
    else if positive > 50 then
      [⟨"Course Structure", "low", sugg_s_low positive tkw, "folder", "lda-based", none, none⟩]
    else
      [⟨"Course Structure", "medium", sugg_s_mid tkw, "folder", "lda-based", none, none⟩]
  else []

/-- The communication rule family (lines 451-468). -/
def comm_block (kwset : List String) (negative : ℚ) (tkw : String) : List Insight :=
  if ["communication", "questions", "help", "support", "available", "office", "hours"].any
      (fun w => kwset.contains w) then
    if negative > 30 then
      [⟨"Communication & Support", "high", sugg_c_high tkw, "message-circle", "lda-based", none, none⟩]
    else
      [⟨"Communication & Support", "medium", sugg_c_mid, "message-circle", "lda-based", none, none⟩]
  else []

/-- The `Overall Performance` fallback emitted when no rule fired
(lines 470-495). -/
def fallback_block (positive negative : ℚ) (tkw : String) : List Insight :=
  if positive > 50 then
    [⟨"Overall Performance", "low", sugg_f_low positive tkw, "award", "lda-based", none, none⟩]
  else if negative > 45 then
    [⟨"Overall Performance", "high", sugg_f_high negative tkw, "alert-circle", "lda-based", none, none⟩]
  else
    [⟨"Overall Performance", "medium", sugg_f_mid tkw, "bar-chart", "lda-based", none, none⟩]

/-- The concatenation of all rule families in source order (the successive
`insights.append` calls of lines 279-468). -/
def rule_insights (keywords : List String) (dist : List (String × ℕ)) : List Insight :=
  teaching_block (keyword_set keywords) (negativePct dist) (positivePct dist)
    (pctOf dist "boredom") (pctOf dist "disappointment")
    (sentiment_context (negativePct dist) (positivePct dist) (neutralPct dist))
    (top_keywords keywords) ++
  materials_block (keyword_set keywords) (negativePct dist) (positivePct dist)
    (top_keywords keywords) ++
  workload_block (keyword_set keywords) (negativePct dist) (top_keywords keywords) ++
  engagement_block (keyword_set keywords) (positivePct dist) (pctOf dist "boredom")
    (top_keywords keywords) ++
  assessment_block (keyword_set keywords) (negativePct dist) (positivePct dist)
    (top_keywords keywords) ++
  structure_block (keyword_set keywords) (negativePct dist) (positivePct dist)
    (top_keywords keywords) ++
  comm_block (keyword_set keywords) (negativePct dist) (top_keywords keywords)

/-- `text.strip()` on the character list: drop leading and trailing
whitespace. -/
def pyStrip (cs : List Char) : List Char :=
  ((cs.dropWhile Char.isWhitespace).reverse.dropWhile Char.isWhitespace).reverse

/-- `full.split('.')[:1][0]`: the characters before the first `'.'`. -/
def before_first_dot (cs : List Char) : List Char := cs.takeWhile (fun c => c != '.')

/-- `t.rsplit(' ', 1)[0]`: everything before the last space when a space
occurs, else the whole string. -/
def rsplit_space_head (cs : List Char) : List Char :=
  if ' ' ∈ cs then ((cs.reverse.dropWhile (fun c => c != ' ')).drop 1).reverse else cs

/-- `t[:137].rsplit(' ', 1)[0] + '...'` — the truncation used by the
post-processing step (lines 508 and 512). -/
def truncate_137 (cs : List Char) : List Char :=
  rsplit_space_head (cs.take 137) ++ ("...".toList)

/-- The summary computation of the post-processing step (lines 501-514):
first sentence when one exists (truncated past 140 characters), else the
full text (truncated past 140 characters). -/
def mk_summary (full : String) : String :=
  if '.' ∈ full.toList then
    if (pyStrip (before_first_dot full.toList)).length > 140 then
      String.mk (truncate_137 (pyStrip (before_first_dot full.toList)))
    else String.mk (pyStrip (before_first_dot full.toList))
  else if full.toList.length ≤ 140 then full
  else String.mk (truncate_137 full.toList)

/-- Post-processing of one insight (lines 499-521): store the summary and
the full text, and replace `suggestion` by the summary (falling back to the
full text when the summary is empty, Python truthiness). -/
def postProcess (ins : Insight) : Insight :=
  { ins with
    summary := some (mk_summary ins.suggestion)
    details := some ins.suggestion
    suggestion :=
      if mk_summary ins.suggestion = "" then ins.suggestion
      else mk_summary ins.suggestion }

/-- `generate_quality_insights(topic_idx, keywords, emotion_dist)`
(lines 242-523).  `topic_idx` is unused by the body, as in the source.
Zero total: the single `General` insight, returned without post-processing.
Otherwise all rule families run; if none fired, the `Overall Performance`
fallback is emitted; the result is post-processed. -/
def generate_quality_insights (topic_idx : ℕ) (keywords : List String)
    (dist : List (String × ℕ)) : List Insight :=
  if pctTotal dist = 0 then
    [⟨"General", "medium", sugg_general, "info", "lda-based", none, none⟩]
  else
    (if (rule_insights keywords dist).isEmpty then
      fallback_block (positivePct dist) (negativePct dist) (top_keywords keywords)
    else rule_insights keywords dist).map postProcess

/-! ## Run gates — `run_topic_modeling_task.py` and the `run_lda_from_db.py`
corpus-size check. -/

/-- The result dict of `run_topic_modeling_task` restricted to the fields
the gate produces. -/
structure TaskResult where
  status : String
  reason : String
deriving DecidableEq

/-- `should_run_topic_modeling()` (`run_topic_modeling_task.py` lines 21-46)
abstracted over its two observations: the count of submitted feedback and
the minutes since `lda_insights.json` was last written (`none` when the
file does not exist). -/
def should_run_topic_modeling (feedback_count : ℕ)
    (minutes_since_last_run : Option ℚ) : Bool :=
  if feedback_count < 10 then false
  else
    match minutes_since_last_run with
    | some m => if m < 10 then false else true
    | none => true

/-- The refusal path of `run_topic_modeling_task()` (lines 49-57): when the
gate fails it returns `{"status": "skipped", "reason": "Conditions not
met"}` without running the model; when the gate passes the subprocess runs
(outside this embedding), so the gate result is `none`. -/
def run_topic_modeling_task_gate (feedback_count : ℕ)
    (minutes_since_last_run : Option ℚ) : Option TaskResult :=
  if should_run_topic_modeling feedback_count minutes_since_last_run then none
  else some ⟨"skipped", "Conditions not met"⟩

/-- The corpus-size gate of `run_lda_from_db.py` (lines 33-35): fewer than
10 submitted feedbacks prints the message and exits with status 1
(modelled as `Except.error` carrying the printed text); otherwise the
script proceeds. -/
def lda_gate (feedback_count : ℕ) : Except String Unit :=
  if feedback_count < 10 then
    Except.error ("Need at least 10 feedbacks for topic modeling. Currently have " ++
      toString feedback_count ++ ".")
  else Except.ok ()

/-- The Boolean checker used to state the insight suggestion-length bound:
every insight in the list has a `suggestion` of at most 140 characters. -/
def insight_len_ok (l : List Insight) : Bool :=
  l.all fun i => decide (i.suggestion.length ≤ 140)

/-- A string whose first character exists, is not whitespace and is not a
period — the shape of every template the rule engine emits, which makes the
post-processing summary nonempty. -/
def good_head (s : String) : Prop :=
  ∃ c, s.toList.head? = some c ∧ c.isWhitespace = false ∧ c ≠ '.'


/-! ## Helper lemmas: Score Adjuster -/

theorem sqrt_tenth_ge : (0.3 : ℝ) ≤ Real.sqrt (1 / 10) := by
  rw [show (0.3 : ℝ) = Real.sqrt (0.3 ^ 2) by rw [Real.sqrt_sq (by norm_num)]]
  apply Real.sqrt_le_sqrt
  norm_num

theorem sqrt_tenth_le_one : Real.sqrt (1 / 10) ≤ 1 := by
  rw [show (1 : ℝ) = Real.sqrt 1 by rw [Real.sqrt_one]]
  apply Real.sqrt_le_sqrt
  norm_num

theorem size_weight_fifty : size_weight 50 = 1 := by
  unfold size_weight MINIMUM_FEEDBACK_THRESHOLD
  rw [min_eq_left]
  rw [show (1 : ℝ) = Real.sqrt 1 by rw [Real.sqrt_one]]
  apply Real.sqrt_le_sqrt
  norm_num

theorem size_weight_one_val : size_weight 1 = Real.sqrt (1 / 10) := by
  unfold size_weight MINIMUM_FEEDBACK_THRESHOLD
  rw [min_eq_right sqrt_tenth_le_one]

theorem scenario3_core :
    confidence_adjusted 0.3 50 0.3 < confidence_adjusted 1.8 1 0.3 := by
  unfold confidence_adjusted bayesian_score calculate_bayesian_average
    MINIMUM_FEEDBACK_THRESHOLD
  rw [size_weight_fifty, size_weight_one_val]
  nlinarith [sqrt_tenth_ge]

/-- C1.  Counterexample to the claim as stated: in spec Scenario 3 (global
mean `0.3`, group A `raw = 1.8, n = 1`, group B `raw = 0.3, n = 50`,
confidence constant `C = 10`), group A's `confidence_adjusted_score` is NOT
`≤` group B's: A's score is `0.5·(4.8/11) + 0.5·1.8·√0.1 ≈ 0.503`, while B's
is exactly `0.3`. -/
theorem C1_counterexample :
    ¬ (confidence_adjusted 1.8 1 0.3 ≤ confidence_adjusted 0.3 50 0.3) :=
  not_le.mpr scenario3_core

/-- C1, amended.  In spec Scenario 3, shrinkage pulls group A down
substantially (from `1.8` to about `0.503`) but not below group B's `0.3`,
so A's `confidence_adjusted_score` is strictly greater than B's and A
appears above B in the ranking sorted descending by
`Confidence_Adjusted_Score`. -/
theorem C1_theorem :
    confidence_adjusted 0.3 50 0.3 < confidence_adjusted 1.8 1 0.3 :=
  scenario3_core

theorem confidence_adjusted_zero_count :
    confidence_adjusted 1.8 0 0.3 = 0.15 := by
  have h0 : size_weight 0 = 0 := by
    unfold size_weight MINIMUM_FEEDBACK_THRESHOLD
    norm_num [Real.sqrt_zero]
  unfold confidence_adjusted bayesian_score calculate_bayesian_average
    MINIMUM_FEEDBACK_THRESHOLD
  rw [h0]
  norm_num

/-- C2.  Counterexample to the claim as stated: with global mean `m = 0.3`
and two groups P and Q both of raw score `r = 1.8` and sample counts
`n₁ = n₂ = 0` (so `n₁ ≥ n₂`), the confidence-adjusted score of both is
`0.15`, whose distance to `r` is `1.65` — NOT `≤` its distance `0.15` to the
global mean. -/
theorem C2_counterexample :
    ¬ (|confidence_adjusted 1.8 0 0.3 - 1.8| ≤ |confidence_adjusted 1.8 0 0.3 - 0.3|) := by
  rw [confidence_adjusted_zero_count]
  rw [show (0.15 : ℝ) - 1.8 = -1.65 by norm_num,
    show (0.15 : ℝ) - 0.3 = -0.15 by norm_num]
  rw [abs_neg, abs_neg, abs_of_pos (by norm_num), abs_of_pos (by norm_num)]
  norm_num

/-- C2, amended.  The monotonicity that does hold in the code concerns the
Bayesian component and the size weight separately: for identical raw mean
score `r` and sample counts `n₁ ≥ n₂ ≥ 0`, the larger-sample group's
`bayesian_score` is at least as close to `r` as the smaller-sample group's
`bayesian_score` is to `r`, and its `size_weight` is at least as large.
The spec's mixed comparison (confidence-adjusted distance to `r` versus the
other group's distance to the global mean) fails, per the counterexample. -/
theorem C2_theorem (r m n1 n2 : ℝ) (h0 : 0 ≤ n2) (h : n2 ≤ n1) :
    |bayesian_score r n1 m - r| ≤ |bayesian_score r n2 m - r| ∧
      size_weight n2 ≤ size_weight n1 := by
  constructor
  · have key : ∀ n : ℝ, 0 ≤ n → bayesian_score r n m - r = 10 * (m - r) / (10 + n) := by
      intro n hn
      unfold bayesian_score calculate_bayesian_average MINIMUM_FEEDBACK_THRESHOLD
      have hne : (10 : ℝ) + n ≠ 0 := by positivity
      field_simp
      ring
    rw [key n1 (le_trans h0 h), key n2 h0]
    rw [abs_div, abs_div]
    rw [abs_of_pos (show (0 : ℝ) < 10 + n1 by linarith),
      abs_of_pos (show (0 : ℝ) < 10 + n2 by linarith)]
    gcongr
  · unfold size_weight MINIMUM_FEEDBACK_THRESHOLD
    exact min_le_min le_rfl (Real.sqrt_le_sqrt (by linarith))

/-- C2, witness: the amended monotonicity applied at `r = 1`, `m = 0`,
`n₁ = 5`, `n₂ = 2`. -/
theorem C2_witness :
    |bayesian_score 1 5 0 - 1| ≤ |bayesian_score 1 2 0 - 1| ∧
      size_weight 2 ≤ size_weight 5 :=
  C2_theorem 1 0 5 2 (by norm_num) (by norm_num)

/-! ## Helper lemmas: the text normalizer -/

theorem splitWS_nil : splitWS [] = [] := rfl

theorem splitWS_cons_ws {c : Char} (h : c.isWhitespace = true) (rest : List Char) :
    splitWS (c :: rest) = splitWS rest := by
  show splitWSAux (c :: rest) [] = splitWSAux rest []
  rw [splitWSAux, if_pos h]
  simp

theorem splitWSAux_ne_nil (cs acc : List Char) (h : acc ≠ []) :
    splitWSAux cs acc =
      (acc.reverse ++ cs.takeWhile notWS) :: splitWS (cs.dropWhile notWS) := by
  induction cs generalizing acc with
  | nil =>
    rw [splitWSAux, if_neg (by simpa using h)]
    simp [splitWS, splitWSAux]
  | cons c rest ih =>
    by_cases hc : c.isWhitespace
    · rw [splitWSAux, if_pos hc, if_neg (by simpa using h)]
      rw [List.takeWhile_cons_of_neg (by simp [notWS, hc]),
        List.dropWhile_cons_of_neg (by simp [notWS, hc])]
      rw [List.append_nil, splitWS_cons_ws hc]
      rfl
    · rw [splitWSAux, if_neg hc]
      rw [ih (c :: acc) (by simp)]
      rw [List.takeWhile_cons_of_pos (by simp [notWS, hc]),
        List.dropWhile_cons_of_pos (by simp [notWS, hc])]
      simp

theorem splitWS_cons_not_ws {c : Char} (h : c.isWhitespace = false) (rest : List Char) :
    splitWS (c :: rest) =
      (c :: rest.takeWhile notWS) :: splitWS (rest.dropWhile notWS) := by
  show splitWSAux (c :: rest) [] = _
  rw [splitWSAux, if_neg (by simp [h])]
  rw [splitWSAux_ne_nil rest [c] (by simp)]
  simp

theorem splitWS_token_clean : ∀ cs : List Char, ∀ w ∈ splitWS cs,
    w ≠ [] ∧ (∀ c ∈ w, notWS c = true) ∧ (∀ c ∈ w, c ∈ cs) := by
  have main : ∀ n : ℕ, ∀ cs : List Char, cs.length ≤ n → ∀ w ∈ splitWS cs,
      w ≠ [] ∧ (∀ c ∈ w, notWS c = true) ∧ (∀ c ∈ w, c ∈ cs) := by
    intro n
    induction n with
    | zero =>
      intro cs hlen w hw
      rw [List.length_eq_zero.mp (Nat.le_zero.mp hlen)] at hw
      simp [splitWS_nil] at hw
    | succ n ih =>
      intro cs hlen w hw
      cases cs with
      | nil => simp [splitWS_nil] at hw
      | cons c rest =>
        by_cases hc : c.isWhitespace
        · rw [splitWS_cons_ws hc] at hw
          obtain ⟨h1, h2, h3⟩ := ih rest (by simpa using Nat.le_of_succ_le_succ hlen) w hw
          exact ⟨h1, h2, fun x hx => List.mem_cons_of_mem _ (h3 x hx)⟩
        · rw [splitWS_cons_not_ws (by simpa using hc)] at hw
          rcases List.mem_cons.mp hw with rfl | hw
          · refine ⟨by simp, ?_, ?_⟩
            · intro x hx
              rcases List.mem_cons.mp hx with rfl | hx
              · simpa [notWS] using hc
              · exact List.mem_takeWhile_imp hx
            · intro x hx
              rcases List.mem_cons.mp hx with rfl | hx
              · exact List.mem_cons_self _ _
              · exact List.mem_cons_of_mem _ ((List.takeWhile_sublist _).mem hx)
          · have hdlen : (rest.dropWhile notWS).length ≤ n := by
              have h1 : (rest.takeWhile notWS ++ rest.dropWhile notWS).length = rest.length := by
                rw [List.takeWhile_append_dropWhile]
              rw [List.length_append] at h1
              have : rest.length ≤ n := by simpa using Nat.le_of_succ_le_succ hlen
              omega
            obtain ⟨h1, h2, h3⟩ := ih (rest.dropWhile notWS) hdlen w hw
            exact ⟨h1, h2, fun x hx =>
              List.mem_cons_of_mem _ ((List.dropWhile_sublist _).mem (h3 x hx))⟩
  exact fun cs => main cs.length cs le_rfl

theorem splitWS_single {w : List Char} (hne : w ≠ [])
    (hcl : ∀ c ∈ w, notWS c = true) : splitWS w = [w] := by
  cases w with
  | nil => exact absurd rfl hne
  | cons c rest =>
    have hc : c.isWhitespace = false := by
      have := hcl c (List.mem_cons_self _ _)
      simpa [notWS] using this
    rw [splitWS_cons_not_ws hc]
    have htw : rest.takeWhile notWS = rest :=
      List.takeWhile_eq_self_iff.mpr fun x hx => hcl x (List.mem_cons_of_mem _ hx)
    have hdw : rest.dropWhile notWS = [] :=
      List.dropWhile_eq_nil_iff.mpr fun x hx => hcl x (List.mem_cons_of_mem _ hx)
    rw [htw, hdw, splitWS_nil]

theorem splitWS_word_space {w rest : List Char} (hne : w ≠ [])
    (hcl : ∀ c ∈ w, notWS c = true) :
    splitWS (w ++ ' ' :: rest) = w :: splitWS rest := by
  cases w with
  | nil => exact absurd rfl hne
  | cons c t =>
    have hc : c.isWhitespace = false := by
      have := hcl c (List.mem_cons_self _ _)
      simpa [notWS] using this
    have ht : ∀ x ∈ t, notWS x = true := fun x hx => hcl x (List.mem_cons_of_mem _ hx)
    rw [List.cons_append, splitWS_cons_not_ws hc]
    rw [List.takeWhile_append_of_pos ht, List.dropWhile_append_of_pos ht]
    have h1 : List.takeWhile notWS (' ' :: rest) = [] := by
      rw [List.takeWhile_cons_of_neg]
      simp [notWS]
    rw [h1, List.append_nil]
    have h2 : List.dropWhile notWS (' ' :: rest) = ' ' :: rest := by
      rw [List.dropWhile_cons_of_neg]
      simp [notWS]
    rw [h2, splitWS_cons_ws (by simp)]

theorem splitWS_joinSpace {ws : List (List Char)}
    (h : ∀ w ∈ ws, w ≠ [] ∧ ∀ c ∈ w, notWS c = true) :
    splitWS (joinSpace ws) = ws := by
  induction ws with
  | nil => exact splitWS_nil
  | cons w ws ih =>
    cases ws with
    | nil =>
      obtain ⟨h1, h2⟩ := h w (List.mem_cons_self _ _)
      exact splitWS_single h1 h2
    | cons w2 ws2 =>
      obtain ⟨h1, h2⟩ := h w (List.mem_cons_self _ _)
      rw [show joinSpace (w :: w2 :: ws2) = w ++ ' ' :: joinSpace (w2 :: ws2) from rfl]
      rw [splitWS_word_space h1 h2]
      rw [ih (fun x hx => h x (List.mem_cons_of_mem _ hx))]

theorem char_toNat_ofNat (n : Nat) (h : n.isValidChar) : (Char.ofNat n).toNat = n := by
  rw [Char.ofNat, dif_pos h]
  simp [Char.ofNatAux, Char.toNat, UInt32.toNat, BitVec.toNat_ofNatLt]

theorem toLower_idem (c : Char) : c.toLower.toLower = c.toLower := by
  unfold Char.toLower
  by_cases h : c.toNat ≥ 65 ∧ c.toNat ≤ 90
  · rw [if_pos h]
    have hv : (c.toNat + 32).isValidChar := by
      constructor
      omega
    rw [char_toNat_ofNat _ hv]
    rw [if_neg (by omega)]
  · rw [if_neg h, if_neg h]

theorem preprocess_tokens (t : List Char) :
    splitWS (preprocess_for_topics t) = (splitWS (pyLower t)).filter keepTok := by
  unfold preprocess_for_topics
  apply splitWS_joinSpace
  intro w hw
  have hmem := (List.mem_filter.mp hw).1
  obtain ⟨h1, h2, _⟩ := splitWS_token_clean _ w hmem
  exact ⟨h1, h2⟩

theorem preprocess_api_tokens (t : List Char) :
    splitWS (preprocess_for_topics_api t) = (splitWS (pyLower t)).filter keepTokApi := by
  unfold preprocess_for_topics_api
  apply splitWS_joinSpace
  intro w hw
  have hmem := (List.mem_filter.mp hw).1
  obtain ⟨h1, h2, _⟩ := splitWS_token_clean _ w hmem
  exact ⟨h1, h2⟩

theorem mem_joinSpace {ws : List (List Char)} {c : Char} (h : c ∈ joinSpace ws) :
    (∃ w ∈ ws, c ∈ w) ∨ c = ' ' := by
  induction ws with
  | nil => simp [joinSpace] at h
  | cons w ws ih =>
    cases ws with
    | nil =>
      left
      exact ⟨w, List.mem_cons_self _ _, h⟩
    | cons w2 ws2 =>
      rw [show joinSpace (w :: w2 :: ws2) = w ++ ' ' :: joinSpace (w2 :: ws2) from rfl] at h
      rcases List.mem_append.mp h with h | h
      · exact Or.inl ⟨w, List.mem_cons_self _ _, h⟩
      · rcases List.mem_cons.mp h with rfl | h
        · exact Or.inr rfl
        · rcases ih h with ⟨w', hw', hc⟩ | rfl
          · exact Or.inl ⟨w', List.mem_cons_of_mem _ hw', hc⟩
          · exact Or.inr rfl

theorem map_fix_eq_self {l : List Char} {f : Char → Char} (h : ∀ c ∈ l, f c = c) :
    l.map f = l := by
  induction l with
  | nil => rfl
  | cons c cs ih =>
    rw [List.map_cons, h c (List.mem_cons_self _ _),
      ih (fun x hx => h x (List.mem_cons_of_mem _ hx))]

theorem pyLower_preprocess (t : List Char) :
    pyLower (preprocess_for_topics t) = preprocess_for_topics t := by
  apply map_fix_eq_self
  intro c hc
  unfold preprocess_for_topics at hc
  rcases mem_joinSpace hc with ⟨w, hw, hcw⟩ | rfl
  · have hmem := (List.mem_filter.mp hw).1
    have hc_in : c ∈ pyLower t := (splitWS_token_clean _ w hmem).2.2 c hcw
    obtain ⟨d, _, rfl⟩ := List.mem_map.mp hc_in
    exact toLower_idem d
  · decide

theorem preprocess_idem (t : List Char) :
    preprocess_for_topics (preprocess_for_topics t) = preprocess_for_topics t := by
  conv_lhs => rw [preprocess_for_topics]
  rw [pyLower_preprocess, preprocess_tokens, List.filter_filter]
  have h : (fun a => keepTok a && keepTok a) = keepTok := by
    funext a
    rw [Bool.and_self]
  rw [h, preprocess_for_topics]

/-- C8.  Counterexample to the claim as stated: the cited normalizer
(`run_lda_from_db.preprocess_for_topics`) applies NO noise-name list.  On
input `"Sir Maam 2024 welcome"` it lowercases and strips the short token
`sir` and the numeral `2024`, but KEEPS the honorific `maam`, even though
`maam` is in the repository's own noise list (`faculty_names` of
`api/views.py`); only the API variant removes it. -/
theorem C8_counterexample :
    preprocess_str "Sir Maam 2024 welcome" = "maam welcome" ∧
      "maam".toList ∈ faculty_names ∧
      preprocess_api_str "Sir Maam 2024 welcome" = "welcome" := by
  refine ⟨?_, by decide, ?_⟩ <;> decide

/-- C8, amended.  The cited normalizer lowercases and keeps exactly the
tokens of length `> 3` that are not pure numerals (no noise-name list); the
API-view variant additionally strips tokens of the `faculty_names` noise
set.  Both are total functions, and the empty input yields the empty
output.  Stated as an exact characterization: the tokens of the output are
the tokens of the lowercased input passing the respective filter. -/
theorem C8_theorem (s : String) :
    splitWS (preprocess_str s).toList = (splitWS (pyLower s.toList)).filter keepTok ∧
      splitWS (preprocess_api_str s).toList =
        (splitWS (pyLower s.toList)).filter keepTokApi ∧
      preprocess_str "" = "" ∧ preprocess_api_str "" = "" :=
  ⟨preprocess_tokens s.toList, preprocess_api_tokens s.toList, rfl, rfl⟩

/-- C10.  Confirmed: the text normalizer is idempotent — applying
`preprocess_for_topics` twice yields the same string as applying it once.
The output consists of lowercase-fixed tokens joined by single spaces, each
of length `> 3` and not a numeral, so the second pass keeps it unchanged. -/
theorem C10_theorem (s : String) :
    preprocess_str (preprocess_str s) = preprocess_str s :=
  congrArg String.mk (preprocess_idem s.toList)

/-! ## Topic count and run gates -/

/-- C6.  Counterexample to the claim as stated: at `document_count = 12` the
cited code (`run_lda_from_db.py` line 97) computes
`n_topics = min(5, 12 // 2) = 5`, while the spec formula
`clamp(12 / 3, 3, 8)` gives `4`. -/
theorem C6_counterexample :
    n_topics 12 ≠ spec_clamp 12 ∧ n_topics 12 = 5 ∧ spec_clamp 12 = 4 := by
  decide

/-- C6, amended.  When not explicitly supplied, the cited batch script
computes `K = min(5, document_count // 2)` — in particular `K = 5` for every
corpus passing the 10-document gate — and the file-based script fixes
`K = 8`; only the API view (`api/views.py` line 1112) computes
`min(8, max(3, document_count // 3))`, which equals the spec's
`clamp(document_count / 3, 3, 8)`. -/
theorem C6_theorem (document_count : ℕ) (h : 10 ≤ document_count) :
    n_topics document_count = 5 ∧
      n_topics_api document_count = spec_clamp document_count ∧
      n_topics_file = 8 := by
  refine ⟨?_, ?_, rfl⟩
  · simp only [n_topics, Nat.min_def]
    split_ifs <;> omega
  · simp only [n_topics_api, spec_clamp, Nat.min_def, Nat.max_def]
    split_ifs <;> omega

/-- C6, witness: the amended statement applied at `document_count = 10`. -/
theorem C6_witness :
    n_topics 10 = 5 ∧ n_topics_api 10 = spec_clamp 10 ∧ n_topics_file = 8 :=
  C6_theorem 10 (by decide)

/-- C5.  Counterexample to the claim as stated: at 9 submitted feedbacks the
pipeline does refuse, but no typed `InsufficientCorpusError` reaches any
caller — `run_topic_modeling_task` returns the untyped result
`{"status": "skipped", "reason": "Conditions not met"}`, and
`run_lda_from_db.py` prints a message and exits with status 1. -/
theorem C5_counterexample :
    run_topic_modeling_task_gate 9 none = some ⟨"skipped", "Conditions not met"⟩ ∧
      lda_gate 9 = Except.error
        "Need at least 10 feedbacks for topic modeling. Currently have 9." ∧
      "Conditions not met" ≠ "InsufficientCorpusError" := by
  refine ⟨by decide, rfl, by decide⟩

/-- C5, amended.  For every corpus with fewer than `10` documents the
pipeline refuses to run topic modeling — `should_run_topic_modeling` is
false regardless of the last-run time, the task wrapper returns the
`skipped`/`Conditions not met` result, and the DB script exits with status
1 after printing its message — but the refusal is reported through these
untyped channels, not through a typed `InsufficientCorpusError`. -/
theorem C5_theorem (feedback_count : ℕ) (h : feedback_count < 10)
    (minutes : Option ℚ) :
    should_run_topic_modeling feedback_count minutes = false ∧
      run_topic_modeling_task_gate feedback_count minutes =
        some ⟨"skipped", "Conditions not met"⟩ ∧
      lda_gate feedback_count = Except.error
        ("Need at least 10 feedbacks for topic modeling. Currently have " ++
          toString feedback_count ++ ".") := by
  have h1 : should_run_topic_modeling feedback_count minutes = false := by
    unfold should_run_topic_modeling
    rw [if_pos h]
  refine ⟨h1, ?_, ?_⟩
  · unfold run_topic_modeling_task_gate
    rw [h1]
    rfl
  · unfold lda_gate
    rw [if_pos h]

/-- C5, witness: the amended refusal statement applied at 9 feedbacks with
no previous run. -/
theorem C5_witness :
    should_run_topic_modeling 9 none = false ∧
      run_topic_modeling_task_gate 9 none = some ⟨"skipped", "Conditions not met"⟩ ∧
      lda_gate 9 = Except.error
        ("Need at least 10 feedbacks for topic modeling. Currently have " ++
          toString 9 ++ ".") :=
  C5_theorem 9 (by decide) none

/-! ## Helper lemmas: topic naming -/

theorem upsert_keys_nodup {m : List (String × List String)} (k : String)
    (v : List String) (h : (m.map Prod.fst).Nodup) :
    ((upsert m k v).map Prod.fst).Nodup := by
  unfold upsert
  split_ifs with hany
  · have hkeys : (m.map fun p => if p.1 == k then (k, v) else p).map Prod.fst =
        m.map Prod.fst := by
      rw [List.map_map]
      apply List.map_congr_left
      intro p _
      by_cases hp : p.1 == k
      · simp only [Function.comp, hp, if_pos]
        exact (beq_iff_eq.mp hp).symm
      · simp only [Function.comp, hp, if_neg]
        rfl
    rw [hkeys]
    exact h
  · rw [List.map_append]
    rw [List.nodup_append]
    refine ⟨h, List.nodup_singleton _, ?_⟩
    intro x hx
    simp only [List.map_cons, List.map_nil, List.mem_singleton]
    intro hxk
    obtain ⟨p, hp, hpk⟩ := List.mem_map.mp hx
    have hfalse : m.any (fun p => p.1 == k) = false := Bool.eq_false_iff.mpr hany
    have hne := List.any_eq_false.mp hfalse p hp
    rw [hpk, hxk] at hne
    simp at hne

theorem foldl_upsert_keys_nodup :
    ∀ (tss : List (List String)) (acc : List (String × List String)),
      (acc.map Prod.fst).Nodup →
      (((tss.foldl (fun acc ws => upsert acc (generate_topic_name ws) ws) acc)).map
        Prod.fst).Nodup := by
  intro tss
  induction tss with
  | nil => exact fun acc h => h
  | cons ws tss ih =>
    intro acc h
    exact ih _ (upsert_keys_nodup _ _ h)

/-- C7.  Counterexample to the claim as stated: the cited
`run_lda_from_db.display_topics` never disambiguates.  Two topics whose
top-word lists are `["teaching", "great"]` and `["instructor", "nice"]`
both receive the name `Teaching Quality`; the later topic OVERWRITES the
earlier in the name-keyed `topics` dict (one entry survives, holding the
later topic's keywords), and no distinguishing keyword is appended, so the
two topic indices do not map to their own names. -/
theorem C7_counterexample :
    generate_topic_name ["teaching", "great"] = "Teaching Quality" ∧
      generate_topic_name ["instructor", "nice"] = "Teaching Quality" ∧
      display_topics [["teaching", "great"], ["instructor", "nice"]] =
        [("Teaching Quality", ["instructor", "nice"])] := by
  refine ⟨by decide, by decide, by decide⟩

/-- C7, amended.  In the cited `display_topics`, colliding names are not
disambiguated: the later topic's entry overwrites the earlier one in the
name-keyed dict, so distinct topic indices can share a name and the dict
can hold fewer entries than topics.  What does hold within a run is that
the dict's KEYS are pairwise distinct (a Python dict cannot hold duplicate
keys), for every input list of per-topic top words. -/
theorem C7_theorem (topic_top_words : List (List String)) :
    ((display_topics topic_top_words).map Prod.fst).Nodup :=
  foldl_upsert_keys_nodup topic_top_words [] (by simp)

/-! ## Helper lemmas: the insight engine and its post-processing -/

theorem head_some_append {a b : String} {c : Char}
    (h : a.toList.head? = some c) : (a ++ b).toList.head? = some c := by
  show (a.data ++ b.data).head? = some c
  cases ha : a.data with
  | nil =>
    rw [show a.toList = a.data from rfl, ha] at h
    simp at h
  | cons x xs =>
    rw [show a.toList = a.data from rfl, ha] at h
    simpa using h

theorem rsplit_head_len (cs : List Char) : (rsplit_space_head cs).length ≤ cs.length := by
  unfold rsplit_space_head
  split_ifs with h
  · have h1 : (cs.reverse.dropWhile (fun c => c != ' ')).length ≤ cs.reverse.length :=
      (List.dropWhile_sublist _).length_le
    rw [List.length_reverse] at h1
    simp only [List.length_reverse, List.length_drop]
    omega
  · exact le_rfl

theorem truncate_137_len (cs : List Char) : (truncate_137 cs).length ≤ 140 := by
  unfold truncate_137
  rw [List.length_append]
  have h1 := rsplit_head_len (cs.take 137)
  have h2 : (cs.take 137).length ≤ 137 := by
    rw [List.length_take]
    exact min_le_left _ _
  have h3 : ("...".toList).length = 3 := rfl
  omega

theorem truncate_137_ne_nil (cs : List Char) : truncate_137 cs ≠ [] := by
  unfold truncate_137
  simp

theorem mk_summary_len (s : String) : (mk_summary s).length ≤ 140 := by
  unfold mk_summary
  split_ifs with h1 h2 h3
  · exact truncate_137_len _
  · exact Nat.le_of_not_lt h2
  · exact h3
  · exact truncate_137_len _

theorem pyStrip_ne_nil {cs : List Char} {c : Char} (hc : cs.head? = some c)
    (hws : c.isWhitespace = false) : pyStrip cs ≠ [] := by
  cases cs with
  | nil => simp at hc
  | cons a t =>
    have hac : a = c := by simpa using hc
    unfold pyStrip
    rw [List.dropWhile_cons_of_neg (by simp [hac, hws])]
    intro hcontra
    rw [List.reverse_eq_nil_iff, List.dropWhile_eq_nil_iff] at hcontra
    have hfalse := hcontra a (by simp)
    rw [hac, hws] at hfalse
    exact Bool.false_ne_true hfalse

theorem before_dot_head {c : Char} (hdot : c ≠ '.') (t : List Char) :
    before_first_dot (c :: t) = c :: t.takeWhile (fun x => x != '.') := by
  unfold before_first_dot
  rw [List.takeWhile_cons_of_pos]
  simp [hdot]

theorem string_mk_ne_empty {l : List Char} (h : l ≠ []) : String.mk l ≠ "" := by
  intro hcon
  exact h (congrArg String.data hcon)

theorem mk_summary_ne_empty {s : String} {c : Char} (hc : s.toList.head? = some c)
    (hws : c.isWhitespace = false) (hdot : c ≠ '.') : mk_summary s ≠ "" := by
  unfold mk_summary
  split_ifs with h1 h2 h3
  · exact string_mk_ne_empty (truncate_137_ne_nil _)
  · apply string_mk_ne_empty
    cases hs : s.toList with
    | nil =>
      rw [hs] at hc
      simp at hc
    | cons a t =>
      rw [hs] at hc
      have hac : a = c := by simpa using hc
      rw [hac, before_dot_head hdot]
      exact pyStrip_ne_nil (by simp) hws
  · intro hcon
    rw [hcon] at hc
    simp at hc
  · exact string_mk_ne_empty (truncate_137_ne_nil _)

theorem postProcess_suggestion_len {ins : Insight} (h : good_head ins.suggestion) :
    (postProcess ins).suggestion.length ≤ 140 := by
  obtain ⟨c, hc, hws, hdot⟩ := h
  unfold postProcess
  dsimp only
  rw [if_neg (mk_summary_ne_empty hc hws hdot)]
  exact mk_summary_len _

theorem sentiment_context_good (negative positive neutral : ℚ) :
    good_head (sentiment_context negative positive neutral) := by
  unfold sentiment_context
  split_ifs
  · refine ⟨'H', ?_, by decide, by decide⟩
    repeat apply head_some_append
    rfl
  · refine ⟨'M', ?_, by decide, by decide⟩
    repeat apply head_some_append
    rfl
  · refine ⟨'S', ?_, by decide, by decide⟩
    repeat apply head_some_append
    rfl
  · refine ⟨'G', ?_, by decide, by decide⟩
    repeat apply head_some_append
    rfl
  · refine ⟨'M', ?_, by decide, by decide⟩
    repeat apply head_some_append
    rfl
theorem sugg_general_good : good_head (sugg_general) := by
  exact ⟨'C', rfl, by decide, by decide⟩

theorem sugg_t_high_good (ctx : String) (tkw : String) (h : good_head ctx) : good_head (sugg_t_high ctx tkw) := by
  obtain ⟨c, hc, hws, hdot⟩ := h
  refine ⟨c, ?_, hws, hdot⟩
  unfold sugg_t_high
  repeat apply head_some_append
  exact hc

theorem sugg_t_boredom_good (boredom : ℚ) : good_head (sugg_t_boredom boredom) := by
  refine ⟨'S', ?_, by decide, by decide⟩
  unfold sugg_t_boredom
  repeat apply head_some_append
  rfl

theorem sugg_t_disappoint_good (disappointment : ℚ) : good_head (sugg_t_disappoint disappointment) := by
  refine ⟨'S', ?_, by decide, by decide⟩
  unfold sugg_t_disappoint
  repeat apply head_some_append
  rfl

theorem sugg_t_low_good (ctx : String) (tkw : String) (h : good_head ctx) : good_head (sugg_t_low ctx tkw) := by
  obtain ⟨c, hc, hws, hdot⟩ := h
  refine ⟨c, ?_, hws, hdot⟩
  unfold sugg_t_low
  repeat apply head_some_append
  exact hc

theorem sugg_t_mid_good (ctx : String) (tkw : String) (h : good_head ctx) : good_head (sugg_t_mid ctx tkw) := by
  obtain ⟨c, hc, hws, hdot⟩ := h
  refine ⟨c, ?_, hws, hdot⟩
  unfold sugg_t_mid
  repeat apply head_some_append
  exact hc

theorem sugg_m_high_good (tkw : String) : good_head (sugg_m_high tkw) := by
  refine ⟨'C', ?_, by decide, by decide⟩
  unfold sugg_m_high
  repeat apply head_some_append
  rfl

theorem sugg_m_assign_good (negative : ℚ) : good_head (sugg_m_assign negative) := by
  refine ⟨'A', ?_, by decide, by decide⟩
  unfold sugg_m_assign
  repeat apply head_some_append
  rfl

theorem sugg_m_low_good (positive : ℚ) (tkw : String) : good_head (sugg_m_low positive tkw) := by
  refine ⟨'C', ?_, by decide, by decide⟩
  unfold sugg_m_low
  repeat apply head_some_append
  rfl

theorem sugg_m_mid_good (tkw : String) : good_head (sugg_m_mid tkw) := by
  refine ⟨'C', ?_, by decide, by decide⟩
  unfold sugg_m_mid
  repeat apply head_some_append
  rfl

theorem sugg_w_main_good (tkw : String) : good_head (sugg_w_main tkw) := by
  refine ⟨'S', ?_, by decide, by decide⟩
  unfold sugg_w_main
  repeat apply head_some_append
  rfl

theorem sugg_w_deadline_good : good_head (sugg_w_deadline) := by
  exact ⟨'D', rfl, by decide, by decide⟩

theorem sugg_e_high_good (boredom : ℚ) (tkw : String) : good_head (sugg_e_high boredom tkw) := by
  refine ⟨'L', ?_, by decide, by decide⟩
  unfold sugg_e_high
  repeat apply head_some_append
  rfl

theorem sugg_e_low_good (positive : ℚ) (tkw : String) : good_head (sugg_e_low positive tkw) := by
  refine ⟨'S', ?_, by decide, by decide⟩
  unfold sugg_e_low
  repeat apply head_some_append
  rfl

theorem sugg_e_mid_good (tkw : String) : good_head (sugg_e_mid tkw) := by
  refine ⟨'E', ?_, by decide, by decide⟩
  unfold sugg_e_mid
  repeat apply head_some_append
  rfl

theorem sugg_a_high_good (negative : ℚ) (tkw : String) : good_head (sugg_a_high negative tkw) := by
  refine ⟨'A', ?_, by decide, by decide⟩
  unfold sugg_a_high
  repeat apply head_some_append
  rfl

theorem sugg_a_low_good (positive : ℚ) : good_head (sugg_a_low positive) := by
  refine ⟨'A', ?_, by decide, by decide⟩
  unfold sugg_a_low
  repeat apply head_some_append
  rfl

theorem sugg_s_high_good (tkw : String) : good_head (sugg_s_high tkw) := by
  refine ⟨'C', ?_, by decide, by decide⟩
  unfold sugg_s_high
  repeat apply head_some_append
  rfl

theorem sugg_s_low_good (positive : ℚ) (tkw : String) : good_head (sugg_s_low positive tkw) := by
  refine ⟨'E', ?_, by decide, by decide⟩
  unfold sugg_s_low
  repeat apply head_some_append
  rfl

theorem sugg_s_mid_good (tkw : String) : good_head (sugg_s_mid tkw) := by
  refine ⟨'C', ?_, by decide, by decide⟩
  unfold sugg_s_mid
  repeat apply head_some_append
  rfl

theorem sugg_c_high_good (tkw : String) : good_head (sugg_c_high tkw) := by
  refine ⟨'S', ?_, by decide, by decide⟩
  unfold sugg_c_high
  repeat apply head_some_append
  rfl

theorem sugg_c_mid_good : good_head (sugg_c_mid) := by
  exact ⟨'M', rfl, by decide, by decide⟩

theorem sugg_f_low_good (positive : ℚ) (tkw : String) : good_head (sugg_f_low positive tkw) := by
  refine ⟨'C', ?_, by decide, by decide⟩
  unfold sugg_f_low
  repeat apply head_some_append
  rfl

theorem sugg_f_high_good (negative : ℚ) (tkw : String) : good_head (sugg_f_high negative tkw) := by
  refine ⟨'S', ?_, by decide, by decide⟩
  unfold sugg_f_high
  repeat apply head_some_append
  rfl

theorem sugg_f_mid_good (tkw : String) : good_head (sugg_f_mid tkw) := by
  refine ⟨'C', ?_, by decide, by decide⟩
  unfold sugg_f_mid
  repeat apply head_some_append
  rfl

theorem forall_mem_ite {α : Type} {P : α → Prop} {c : Prop} [Decidable c]
    {l1 l2 : List α} (h1 : ∀ x ∈ l1, P x) (h2 : ∀ x ∈ l2, P x) :
    ∀ x ∈ (if c then l1 else l2), P x := by
  split_ifs
  · exact h1
  · exact h2

theorem teaching_block_good {kwset : List String}
    {negative positive boredom disappointment : ℚ} {ctx tkw : String}
    (hctx : good_head ctx) :
    ∀ ins ∈ teaching_block kwset negative positive boredom disappointment ctx tkw,
      good_head ins.suggestion := by
  unfold teaching_block
  apply forall_mem_ite
  · apply forall_mem_ite
    · refine List.forall_mem_append.mpr ⟨List.forall_mem_append.mpr ⟨?_, ?_⟩, ?_⟩
      · exact List.forall_mem_singleton.mpr (sugg_t_high_good ctx tkw hctx)
      · apply forall_mem_ite
        · exact List.forall_mem_singleton.mpr (sugg_t_boredom_good boredom)
        · exact List.forall_mem_nil _
      · apply forall_mem_ite
        · exact List.forall_mem_singleton.mpr (sugg_t_disappoint_good disappointment)
        · exact List.forall_mem_nil _
    · apply forall_mem_ite
      · exact List.forall_mem_singleton.mpr (sugg_t_low_good ctx tkw hctx)
      · exact List.forall_mem_singleton.mpr (sugg_t_mid_good ctx tkw hctx)
  · exact List.forall_mem_nil _

theorem materials_block_good {kwset : List String} {negative positive : ℚ}
    {tkw : String} :
    ∀ ins ∈ materials_block kwset negative positive tkw, good_head ins.suggestion := by
  unfold materials_block
  apply forall_mem_ite
  · apply forall_mem_ite
    · refine List.forall_mem_append.mpr ⟨?_, ?_⟩
      · exact List.forall_mem_singleton.mpr (sugg_m_high_good tkw)
      · apply forall_mem_ite
        · exact List.forall_mem_singleton.mpr (sugg_m_assign_good negative)
        · exact List.forall_mem_nil _
    · apply forall_mem_ite
      · exact List.forall_mem_singleton.mpr (sugg_m_low_good positive tkw)
      · exact List.forall_mem_singleton.mpr (sugg_m_mid_good tkw)
  · exact List.forall_mem_nil _

theorem workload_block_good {kwset : List String} {negative : ℚ} {tkw : String} :
    ∀ ins ∈ workload_block kwset negative tkw, good_head ins.suggestion := by
  unfold workload_block
  apply forall_mem_ite
  · refine List.forall_mem_append.mpr ⟨?_, ?_⟩
    · exact List.forall_mem_singleton.mpr (sugg_w_main_good tkw)
    · apply forall_mem_ite
      · exact List.forall_mem_singleton.mpr sugg_w_deadline_good
      · exact List.forall_mem_nil _
  · exact List.forall_mem_nil _

theorem engagement_block_good {kwset : List String} {positive boredom : ℚ}
    {tkw : String} :
    ∀ ins ∈ engagement_block kwset positive boredom tkw, good_head ins.suggestion := by
  unfold engagement_block
  apply forall_mem_ite
  · apply forall_mem_ite
    · exact List.forall_mem_singleton.mpr (sugg_e_high_good boredom tkw)
    · apply forall_mem_ite
      · exact List.forall_mem_singleton.mpr (sugg_e_low_good positive tkw)
      · exact List.forall_mem_singleton.mpr (sugg_e_mid_good tkw)
  · exact List.forall_mem_nil _

theorem assessment_block_good {kwset : List String} {negative positive : ℚ}
    {tkw : String} :
    ∀ ins ∈ assessment_block kwset negative positive tkw, good_head ins.suggestion := by
  unfold assessment_block
  apply forall_mem_ite
  · apply forall_mem_ite
    · exact List.forall_mem_singleton.mpr (sugg_a_high_good negative tkw)
    · apply forall_mem_ite
      · exact List.forall_mem_singleton.mpr (sugg_a_low_good positive)
      · exact List.forall_mem_nil _
  · exact List.forall_mem_nil _

theorem structure_block_good {kwset : List String} {negative positive : ℚ}
    {tkw : String} :
    ∀ ins ∈ structure_block kwset negative positive tkw, good_head ins.suggestion := by
  unfold structure_block
  apply forall_mem_ite
  · apply forall_mem_ite
    · exact List.forall_mem_singleton.mpr (sugg_s_high_good tkw)
    · apply forall_mem_ite
      · exact List.forall_mem_singleton.mpr (sugg_s_low_good positive tkw)
      · exact List.forall_mem_singleton.mpr (sugg_s_mid_good tkw)
  · exact List.forall_mem_nil _

theorem comm_block_good {kwset : List String} {negative : ℚ} {tkw : String} :
    ∀ ins ∈ comm_block kwset negative tkw, good_head ins.suggestion := by
  unfold comm_block
  apply forall_mem_ite
  · apply forall_mem_ite
    · exact List.forall_mem_singleton.mpr (sugg_c_high_good tkw)
    · exact List.forall_mem_singleton.mpr sugg_c_mid_good
  · exact List.forall_mem_nil _

theorem fallback_block_good {positive negative : ℚ} {tkw : String} :
    ∀ ins ∈ fallback_block positive negative tkw, good_head ins.suggestion := by
  unfold fallback_block
  apply forall_mem_ite
  · exact List.forall_mem_singleton.mpr (sugg_f_low_good positive tkw)
  · apply forall_mem_ite
    · exact List.forall_mem_singleton.mpr (sugg_f_high_good negative tkw)
    · exact List.forall_mem_singleton.mpr (sugg_f_mid_good tkw)

theorem rule_insights_good (keywords : List String) (dist : List (String × ℕ)) :
    ∀ ins ∈ rule_insights keywords dist, good_head ins.suggestion := by
  unfold rule_insights
  refine List.forall_mem_append.mpr ⟨List.forall_mem_append.mpr
    ⟨List.forall_mem_append.mpr ⟨List.forall_mem_append.mpr
      ⟨List.forall_mem_append.mpr ⟨List.forall_mem_append.mpr
        ⟨?_, ?_⟩, ?_⟩, ?_⟩, ?_⟩, ?_⟩, ?_⟩
  · exact teaching_block_good (sentiment_context_good _ _ _)
  · exact materials_block_good
  · exact workload_block_good
  · exact engagement_block_good
  · exact assessment_block_good
  · exact structure_block_good
  · exact comm_block_good

/-- C3.  Confirmed: for every topic input — any keyword list and any
emotion-label-to-count map, including the empty map — the insight engine
`generate_quality_insights` returns a non-empty list: the zero-total branch
returns the single `General` insight, and otherwise either some rule fired
or the single `Overall Performance` fallback is emitted, and the
post-processing map preserves length. -/
theorem C3_theorem (topic_idx : ℕ) (keywords : List String)
    (dist : List (String × ℕ)) :
    generate_quality_insights topic_idx keywords dist ≠ [] := by
  unfold generate_quality_insights
  split_ifs with htot hb
  · simp
  · rw [Ne, List.map_eq_nil_iff]
    unfold fallback_block
    split_ifs <;> simp
  · rw [Ne, List.map_eq_nil_iff]
    intro hcon
    rw [hcon] at hb
    exact hb rfl

/-- C4.  Counterexample to the claim as stated: a topic with 0 assigned
documents yields the empty `EmotionDistribution`, and on it the insight
engine emits exactly one fallback insight — but its category is
`"General"` (the zero-total early return of lines 245-253), not
`"Overall Performance"` (which is the fallback used only when the total is
positive and no rule fired). -/
theorem C4_counterexample :
    emotionDistribution [] 0 = [] ∧
      (generate_quality_insights 0 ["teaching"] (emotionDistribution [] 0)).map
        Insight.category = ["General"] ∧
      (generate_quality_insights 0 ["teaching"] (emotionDistribution [] 0)).map
        Insight.category ≠ ["Overall Performance"] := by
  refine ⟨rfl, by decide, by decide⟩

/-- C4, amended.  For every topic with 0 assigned documents, its
`EmotionDistribution` is empty and the insight engine emits exactly one
fallback insight whose category is `"General"` (priority `medium`,
suggestion `Continue monitoring student feedback for this topic area.`),
returned without the summary post-processing. -/
theorem C4_theorem (docs : List (ℕ × String)) (topic : ℕ) (topic_idx : ℕ)
    (keywords : List String)
    (h : docs.filter (fun d => decide (d.1 = topic)) = []) :
    emotionDistribution docs topic = [] ∧
      generate_quality_insights topic_idx keywords (emotionDistribution docs topic) =
        [⟨"General", "medium", sugg_general, "info", "lda-based", none, none⟩] := by
  have hdist : emotionDistribution docs topic = [] := by
    unfold emotionDistribution
    rw [h]
    rfl
  refine ⟨hdist, ?_⟩
  rw [hdist]
  unfold generate_quality_insights
  rw [if_pos (show pctTotal [] = 0 from rfl)]

/-- C4, witness: the amended statement applied to the empty document list
and topic index 0. -/
theorem C4_witness :
    emotionDistribution [] 0 = [] ∧
      generate_quality_insights 0 [] (emotionDistribution [] 0) =
        [⟨"General", "medium", sugg_general, "info", "lda-based", none, none⟩] :=
  C4_theorem [] 0 0 [] rfl

/-- C9.  Confirmed: for every topic input with a non-empty emotion-count
map, every insight returned by `generate_quality_insights` has a
`suggestion` of at most 140 characters.  The post-processing step replaces
the full text by its first sentence, truncated to at most 140 characters
ending in `...` when longer (the full text is kept in `details`); every
template starts with a non-whitespace, non-period character, so the summary
is never empty and the Python-truthiness fallback to the full text never
fires.  The zero-total `General` insight is 57 characters. -/
theorem C9_theorem (topic_idx : ℕ) (keywords : List String)
    (dist : List (String × ℕ)) (h : dist ≠ []) :
    insight_len_ok (generate_quality_insights topic_idx keywords dist) = true := by
  unfold generate_quality_insights
  split_ifs with htot hb
  · decide
  · rw [insight_len_ok, List.all_eq_true]
    intro x hx
    obtain ⟨ins, hins, rfl⟩ := List.mem_map.mp hx
    exact decide_eq_true (postProcess_suggestion_len (fallback_block_good ins hins))
  · rw [insight_len_ok, List.all_eq_true]
    intro x hx
    obtain ⟨ins, hins, rfl⟩ := List.mem_map.mp hx
    exact decide_eq_true (postProcess_suggestion_len (rule_insights_good keywords dist ins hins))

/-- C9, witness: the length bound applied to the concrete topic input with
keywords `[]` and emotion counts `{joy: 1}`. -/
theorem C9_witness :
    insight_len_ok (generate_quality_insights 0 [] [("joy", 1)]) = true :=
  C9_theorem 0 [] [("joy", 1)] (by decide)
